import Mathlib

/-!
EIL cross-chain atomic-swap settlement engine: a shallow embedding of the
protocol driven by the repository's fixtures and integration test
(`src/test/fixture/eil.ts`, the integration test, `src/test/util/viem.ts`).
The Solidity contracts (`OriginSwapManager`, `CrossChainPaymaster`,
`L1AtomicSwapStakeManager`) are not part of the repository snapshot, so the
state-machine operations below are modelled from the specification
(`spec.md` §3, §4.3, §4.4, §4.5); the request-id ABI encoding is translated
from the in-repo TypeScript helper `getVoucherRequestId`, and `getNetwork`
from the network utility module.
-/

namespace EIL

/-- Chain addresses (160-bit in Solidity), modelled as naturals with `0`
standing for the zero address. -/
abbrev Address := Nat

/-- One entry of a request's asset list, the ABI tuple
`(address erc20Token, uint256 amount)` from `getVoucherRequestId`. -/
structure Asset where
  erc20Token : Address
  amount : Nat
  deriving DecidableEq, Repr

/-- Fee schedule parameters, the ABI tuple
`(uint256 startFeePercentNumerator, uint256 maxFeePercentNumerator,
uint256 feeIncreasePerSecond, uint256 unspentVoucherFee)` from
`getVoucherRequestId`; percent numerators are over a denominator of 10000
(the fixture computes `swapAmount * maxFeePercent / 10000`). -/
structure FeeRule where
  startFeePercentNumerator : Nat
  maxFeePercentNumerator : Nat
  feeIncreasePerSecond : Nat
  unspentVoucherFee : Nat
  deriving DecidableEq, Repr

/-- Origin-chain terms of a `VoucherRequest`, mirroring the `origination`
tuple of the ABI schema in `getVoucherRequestId`. -/
structure Origination where
  chainId : Nat
  paymaster : Address
  sender : Address
  assets : List Asset
  feeRule : FeeRule
  senderNonce : Nat
  allowedXlps : List Address
  deriving DecidableEq, Repr

/-- Destination-chain terms of a `VoucherRequest`, mirroring the
`destination` tuple of the ABI schema in `getVoucherRequestId`. -/
structure Destination where
  chainId : Nat
  paymaster : Address
  sender : Address
  assets : List Asset
  maxUserOpCost : Nat
  expiresAt : Nat
  deriving DecidableEq, Repr

/-- A full voucher request, `(origination, destination)` as in the
fixture's `voucherRequest` object and the ABI schema. -/
structure VoucherRequest where
  origination : Origination
  destination : Destination
  deriving DecidableEq, Repr

/-- Modelled from the spec: the fee schedule of §3 (FeeRule "defines a
monotonically non-decreasing fee schedule over elapsed time since lock,
capped at `maxFeePercent`") with the linear rate `feeIncreasePerSecond`
starting from `startFeePercentNumerator`; the percent denominator 10000 is
the one used by the fixture's `swapAmount * maxFeePercent / 10000`.
The contract source holding the exact formula is absent from the
repository snapshot. -/
def computeFee (fr : FeeRule) (principal elapsed : Nat) : Nat :=
  principal *
    min (fr.startFeePercentNumerator + fr.feeIncreasePerSecond * elapsed)
      fr.maxFeePercentNumerator / 10000

/-! ## ABI encoding of a `VoucherRequest` (from `getVoucherRequestId`)

The TypeScript helper computes
`keccak256(encodeAbiParameters(schema, [voucherRequest]))`.  The schema is
repository code; `encodeAbiParameters` is the standard Solidity ABI
encoding, implemented here for that concrete schema, producing the byte
sequence as a list of naturals in `[0, 256)`.  `keccak256` is an external
cryptographic primitive and is taken as a parameter where it matters. -/

/-- One 32-byte big-endian ABI word holding `n % 2^256` (a `uint256` or a
left-padded `address`). -/
def beWord (n : Nat) : List Nat :=
  (List.range 32).map (fun i => n / 256 ^ (31 - i) % 256)

/-- ABI encoding of one `(address erc20Token, uint256 amount)` tuple (a
static tuple of two words). -/
def encAsset (a : Asset) : List Nat :=
  beWord a.erc20Token ++ beWord a.amount

/-- ABI encoding of the dynamic array `assets: tuple[]`: the length word
followed by the static element encodings. -/
def encAssets (l : List Asset) : List Nat :=
  beWord l.length ++ (l.map encAsset).flatten

/-- ABI encoding of the dynamic array `allowedXlps: address[]`. -/
def encAddressArray (l : List Address) : List Nat :=
  beWord l.length ++ (l.map beWord).flatten

/-- ABI encoding of the `origination` tuple: head words for the three
addresses/ids, the offset of `assets`, the four inlined static `feeRule`
words, `senderNonce`, and the offset of `allowedXlps` (10 head words = 320
bytes), followed by the two dynamic tails. -/
def encOrigination (o : Origination) : List Nat :=
  let tailAssets := encAssets o.assets
  beWord o.chainId ++ beWord o.paymaster ++ beWord o.sender ++
    beWord 320 ++
    beWord o.feeRule.startFeePercentNumerator ++
    beWord o.feeRule.maxFeePercentNumerator ++
    beWord o.feeRule.feeIncreasePerSecond ++
    beWord o.feeRule.unspentVoucherFee ++
    beWord o.senderNonce ++
    beWord (320 + tailAssets.length) ++
    tailAssets ++ encAddressArray o.allowedXlps

/-- ABI encoding of the `destination` tuple: six head words (192 bytes),
with `assets` as the only dynamic member at offset 192. -/
def encDestination (d : Destination) : List Nat :=
  beWord d.chainId ++ beWord d.paymaster ++ beWord d.sender ++
    beWord 192 ++ beWord d.maxUserOpCost ++ beWord d.expiresAt ++
    encAssets d.assets

/-- ABI encoding of the single dynamic parameter
`(origination, destination)` as produced by `encodeAbiParameters` in
`getVoucherRequestId`: the top-level offset word, then the pair's two
offset words, then the two tuple encodings. -/
def abiEncodeVoucherRequest (r : VoucherRequest) : List Nat :=
  let eo := encOrigination r.origination
  beWord 32 ++ beWord 64 ++ beWord (64 + eo.length) ++
    eo ++ encDestination r.destination

/-- The request identifier of `getVoucherRequestId`:
`keccak256(encodeAbiParameters(schema, [r]))`, with the external library
hash `keccak256` passed as a parameter. -/
def getVoucherRequestId (keccak256 : List Nat → List Nat)
    (r : VoucherRequest) : List Nat :=
  keccak256 (abiEncodeVoucherRequest r)

/-- The key under which the swap state machine stores a request's record.
Since `keccak256` is a fixed pure function, records are keyed here by its
preimage, the ABI encoding itself: identical fields give identical keys,
exactly the property the replay guard relies on (hash collisions of the
real keccak256 are disregarded). -/
def requestIdBytes (r : VoucherRequest) : List Nat :=
  abiEncodeVoucherRequest r

/-! ## Origin-chain swap state machine

Modelled from the spec: §4.3 `OriginSwapManager` and §3's
`AtomicSwapMetadata`, whose Solidity source is absent from the repository
snapshot; status codes follow §3's enum and the integration test's
assertions (`NEW` = 1, `CANCELLED` = 3, `SUCCESSFUL` = 6). -/

/-- Lifecycle status of an origin-side atomic swap (spec §3). -/
inductive SwapStatus
  | NONE
  | NEW
  | VOUCHER_ISSUED
  | CANCELLED
  | DISPUTED
  | SLASHED
  | SUCCESSFUL
  deriving DecidableEq, Repr

/-- The numeric code the contract's getters expose for each status, as
asserted by the integration test (1 = NEW, 2 = VOUCHER_ISSUED,
3 = CANCELLED, 6 = SUCCESSFUL). -/
def SwapStatus.toNat : SwapStatus → Nat
  | .NONE => 0
  | .NEW => 1
  | .VOUCHER_ISSUED => 2
  | .CANCELLED => 3
  | .DISPUTED => 4
  | .SLASHED => 5
  | .SUCCESSFUL => 6

/-- Origin-side per-request record (spec §3 `AtomicSwapMetadata`). -/
structure AtomicSwapMetadata where
  status : SwapStatus
  voucherIssuerL2XlpAddress : Address
  lockedAt : Nat
  disputeRaisedAt : Option Nat
  deriving DecidableEq, Repr

/-- The record a never-touched `requestId` maps to: status `NONE`, no
issuer, zero timestamps. -/
def AtomicSwapMetadata.empty : AtomicSwapMetadata :=
  ⟨SwapStatus.NONE, 0, 0, none⟩

/-- A signed voucher (spec §3).  Modelled from the spec: ECDSA recovery is
abstracted, the `xlpSignature` field holds the address the signature
recovers to. -/
structure Voucher where
  requestId : List Nat
  originationXlpAddress : Address
  voucherRequestDest : Destination
  expiresAt : Nat
  voucherType : Nat
  xlpSignature : Address
  deriving DecidableEq, Repr

/-- Modelled from the spec: signature recovery over the voucher's signed
tuple (§6); the embedded signature directly names the recovered signer. -/
def recoverVoucherSigner (v : Voucher) : Address :=
  v.xlpSignature

/-- Protocol error taxonomy (spec §7). -/
inductive SwapError
  | AlreadyExists
  | UnauthorizedXlp
  | VoucherExpired
  | VoucherMismatch
  | DelayNotElapsed
  | AlreadyClaimed
  | InvalidStatus
  | DisputeActive
  | TransferFailed
  | InsufficientBalance
  | NotFromBridgeConnector
  deriving DecidableEq, Repr

/-- Timing parameters of the `OriginSwapManager` constructor
(`src/test/fixture/eil.ts`). -/
structure SwapConfig where
  voucherUnlockDelay : Nat
  timeBeforeDisputeExpires : Nat
  userCancellationDelay : Nat
  voucherMinExpirationTime : Nat
  deriving DecidableEq, Repr

/-- Origin-chain state shared by the paymaster and the swap manager
(spec §4.5's single-storage-context note): the per-request records, the
ERC-20 ledger of the swap token(s), the per-owner allowance granted to the
paymaster (the fixture's `sudoApprove(owner, paymaster, amount)`), the
XLPs' internal per-token balances (`tokenBalanceOf`), and the registered
XLP set. -/
structure SwapState where
  config : SwapConfig
  contractAddr : Address
  swaps : List Nat → AtomicSwapMetadata
  erc20Balance : Address → Address → Nat
  erc20AllowanceToPaymaster : Address → Address → Nat
  xlpTokenBalance : Address → Address → Nat
  registeredXlps : List Address

/-- Point update of a two-argument map. -/
def upd2 (f : Address → Address → Nat) (a b : Address) (v : Nat) :
    Address → Address → Nat :=
  fun x y => if x = a ∧ y = b then v else f x y

/-- Point update of the per-request record map. -/
def updSwap (f : List Nat → AtomicSwapMetadata) (k : List Nat)
    (m : AtomicSwapMetadata) : List Nat → AtomicSwapMetadata :=
  fun x => if x = k then m else f x

/-- ERC-20 `transferFrom(owner, paymaster, amt)` as invoked by the lock:
requires allowance and balance, moves `amt` of `tok` from `owner` to the
contract and burns the allowance (spec §4.3: fails with `TransferFailed`
"if asset transfer (approval/balance) is insufficient"). -/
def erc20TransferIn (tok owner : Address) (amt : Nat) (st : SwapState) :
    Option SwapState :=
  if amt ≤ st.erc20AllowanceToPaymaster tok owner ∧
      amt ≤ st.erc20Balance tok owner then
    let bal1 := upd2 st.erc20Balance tok owner (st.erc20Balance tok owner - amt)
    let bal2 := upd2 bal1 tok st.contractAddr (bal1 tok st.contractAddr + amt)
    some { st with
      erc20Balance := bal2
      erc20AllowanceToPaymaster :=
        upd2 st.erc20AllowanceToPaymaster tok owner
          (st.erc20AllowanceToPaymaster tok owner - amt) }
  else none

/-- ERC-20 `transfer(recipient, amt)` out of the contract's own holdings,
used by the cancellation refund. -/
def erc20TransferOut (tok recipient : Address) (amt : Nat) (st : SwapState) :
    Option SwapState :=
  if amt ≤ st.erc20Balance tok st.contractAddr then
    let bal1 := upd2 st.erc20Balance tok st.contractAddr
      (st.erc20Balance tok st.contractAddr - amt)
    let bal2 := upd2 bal1 tok recipient (bal1 tok recipient + amt)
    some { st with erc20Balance := bal2 }
  else none

/-- Pull every asset of the request's origination list from the sender
into the contract, in order. -/
def transferAssetsIn (owner : Address) :
    List Asset → SwapState → Option SwapState
  | [], st => some st
  | a :: rest, st =>
    match erc20TransferIn a.erc20Token owner a.amount st with
    | none => none
    | some st1 => transferAssetsIn owner rest st1

/-- Refund every asset of the origination list from the contract back to
the recipient, in order. -/
def transferAssetsOut (recipient : Address) :
    List Asset → SwapState → Option SwapState
  | [], st => some st
  | a :: rest, st =>
    match erc20TransferOut a.erc20Token recipient a.amount st with
    | none => none
    | some st1 => transferAssetsOut recipient rest st1

/-- Modelled from the spec: §4.3 `lockUserDeposit(request)` — fails with
`AlreadyExists` if the `requestId` already has non-NONE status, transfers
`request.origination.assets` from the sender to the contract (failing with
`TransferFailed` on insufficient approval/balance), and records the new
swap with status `NEW` and `lockedAt = now`. -/
def lockUserDeposit (now : Nat) (req : VoucherRequest) (st : SwapState) :
    Except SwapError SwapState :=
  let rid := requestIdBytes req
  if (st.swaps rid).status ≠ SwapStatus.NONE then .error .AlreadyExists
  else
    match transferAssetsIn req.origination.sender req.origination.assets st with
    | none => .error .TransferFailed
    | some st1 =>
      .ok { st1 with
        swaps := updSwap st1.swaps rid ⟨SwapStatus.NEW, 0, now, none⟩ }

/-- Modelled from the spec: one entry of §4.3 `issueVouchers` — verifies
the request is `NEW`, the voucher's destination terms exactly equal the
request's destination terms (`VoucherMismatch` otherwise), the signature
recovers to an allowed and registered XLP (`UnauthorizedXlp` otherwise),
and `now < voucher.expiresAt` (`VoucherExpired` otherwise); on success
records the issuer and moves the request to `VOUCHER_ISSUED`. -/
def issueVoucherOne (now : Nat) (req : VoucherRequest) (v : Voucher)
    (st : SwapState) : Except SwapError SwapState :=
  let rid := requestIdBytes req
  let meta := st.swaps rid
  if meta.status ≠ SwapStatus.NEW then .error .InvalidStatus
  else if v.voucherRequestDest ≠ req.destination then .error .VoucherMismatch
  else if ¬ (recoverVoucherSigner v ∈ req.origination.allowedXlps ∧
      recoverVoucherSigner v ∈ st.registeredXlps) then .error .UnauthorizedXlp
  else if ¬ now < v.expiresAt then .error .VoucherExpired
  else
    .ok { st with
      swaps := updSwap st.swaps rid
        { meta with
          status := SwapStatus.VOUCHER_ISSUED
          voucherIssuerL2XlpAddress := recoverVoucherSigner v } }

/-- Modelled from the spec: §4.3 `issueVouchers(batch)` processed as one
atomic unit — any failing entry aborts the whole call. -/
def issueVouchers (now : Nat) :
    List (VoucherRequest × Voucher) → SwapState → Except SwapError SwapState
  | [], st => .ok st
  | e :: rest, st =>
    match issueVoucherOne now e.1 e.2 st with
    | .error er => .error er
    | .ok st1 => issueVouchers now rest st1

/-- Modelled from the spec: §4.3 `cancelVoucherRequest(request)` —
requires status `NEW` and `now >= lockedAt + userCancellationDelay`
(`DelayNotElapsed` before that), refunds the original principal (the
origination assets, no fee component) to the sender, and sets
`CANCELLED`. -/
def cancelVoucherRequest (now : Nat) (req : VoucherRequest)
    (st : SwapState) : Except SwapError SwapState :=
  let rid := requestIdBytes req
  let meta := st.swaps rid
  if meta.status ≠ SwapStatus.NEW then .error .InvalidStatus
  else if now < meta.lockedAt + st.config.userCancellationDelay then
    .error .DelayNotElapsed
  else
    match transferAssetsOut req.origination.sender req.origination.assets st with
    | none => .error .TransferFailed
    | some st1 =>
      .ok { st1 with
        swaps := updSwap st1.swaps rid
          { meta with status := SwapStatus.CANCELLED } }

/-- Credit `amount - fee(elapsed)` of every origination asset to the
voucher-issuing XLP's internal token balance (`tokenBalanceOf`); the fee
stays with the contract (spec §4.3: disposition of the fee is a
configurable policy). -/
def creditAssetsToXlp (xlp : Address) (fr : FeeRule) (elapsed : Nat) :
    List Asset → SwapState → SwapState
  | [], st => st
  | a :: rest, st =>
    let fee := computeFee fr a.amount elapsed
    let st1 := { st with
      xlpTokenBalance := upd2 st.xlpTokenBalance a.erc20Token xlp
        (st.xlpTokenBalance a.erc20Token xlp + (a.amount - fee)) }
    creditAssetsToXlp xlp fr elapsed rest st1

/-- Modelled from the spec: one entry of §4.3 `withdrawFromUserDeposit` —
requires status `VOUCHER_ISSUED`, `now >= lockedAt + voucherUnlockDelay`
(`DelayNotElapsed` before that) and no active dispute; credits
`principal - fee(elapsed)` to the voucher-issuing XLP's internal token
balance and sets `SUCCESSFUL`. -/
def withdrawOne (now : Nat) (req : VoucherRequest) (st : SwapState) :
    Except SwapError SwapState :=
  let rid := requestIdBytes req
  let meta := st.swaps rid
  if meta.status ≠ SwapStatus.VOUCHER_ISSUED then .error .InvalidStatus
  else if now < meta.lockedAt + st.config.voucherUnlockDelay then
    .error .DelayNotElapsed
  else if meta.disputeRaisedAt ≠ none then .error .DisputeActive
  else
    let st1 := creditAssetsToXlp meta.voucherIssuerL2XlpAddress
      req.origination.feeRule (now - meta.lockedAt) req.origination.assets st
    .ok { st1 with
      swaps := updSwap st1.swaps rid
        { meta with status := SwapStatus.SUCCESSFUL } }

/-- Modelled from the spec: §4.3 `withdrawFromUserDeposit(batch)`,
processed as one atomic unit. -/
def withdrawFromUserDeposit (now : Nat) :
    List VoucherRequest → SwapState → Except SwapError SwapState
  | [], st => .ok st
  | r :: rest, st =>
    match withdrawOne now r st with
    | .error er => .error er
    | .ok st1 => withdrawFromUserDeposit now rest st1

/-! ## Destination-side settlement (spec §4.4)

Modelled from the spec: the incoming-swap logic of `CrossChainPaymaster`,
whose Solidity source is absent from the snapshot.  `getIncomingAtomicSwap`
status 0 is `NONE` ("not yet claimed, safe to redeem") per the integration
test's assertion. -/

/-- Status of a destination-side `IncomingAtomicSwap` record (spec §3). -/
inductive IncomingStatus
  | NONE
  | CLAIMED
  deriving DecidableEq, Repr

/-- The numeric code `getIncomingAtomicSwap` exposes (the integration test
asserts 0 = NONE before redemption). -/
def IncomingStatus.toNat : IncomingStatus → Nat
  | .NONE => 0
  | .CLAIMED => 1

/-- Destination-chain state: the per-request incoming-swap records, the
XLPs' destination-chain balances per token (`0` = native), the recipients'
balances per token, and the registered XLP set. -/
structure DestState where
  incoming : List Nat → IncomingStatus
  xlpDestBalance : Address → Address → Nat
  recipientBalance : Address → Address → Nat
  registeredXlps : List Address

/-- Lookup of `getIncomingAtomicSwap(requestId)` (read-only status). -/
def getIncomingAtomicSwap (st : DestState) (rid : List Nat) :
    IncomingStatus :=
  st.incoming rid

/-- Move the destination assets from the claiming XLP's destination-chain
balance to the user's designated recipient, failing when the XLP balance
is short. -/
def settleDestAssets (xlp recipient : Address) :
    List Asset → DestState → Option DestState
  | [], st => some st
  | a :: rest, st =>
    if a.amount ≤ st.xlpDestBalance a.erc20Token xlp then
      let st1 := { st with
        xlpDestBalance := upd2 st.xlpDestBalance a.erc20Token xlp
          (st.xlpDestBalance a.erc20Token xlp - a.amount)
        recipientBalance := upd2 st.recipientBalance a.erc20Token recipient
          (st.recipientBalance a.erc20Token recipient + a.amount) }
      settleDestAssets xlp recipient rest st1
    else none

/-- Modelled from the spec: §4.4 redemption of a voucher on the
destination chain — verifies the §4.3 signature and expiry rules, checks
the `IncomingAtomicSwap` status is `NONE` (fails `AlreadyClaimed`
otherwise, the replay guard), debits the claiming XLP's destination-chain
balance by `destination.assets` plus `maxUserOpCost` (native gas
reimbursement ceiling), credits the user's designated recipient, and marks
the record `CLAIMED`. -/
def redeemVoucher (now : Nat) (req : VoucherRequest) (v : Voucher)
    (st : DestState) : Except SwapError DestState :=
  let rid := requestIdBytes req
  if ¬ (recoverVoucherSigner v ∈ req.origination.allowedXlps ∧
      recoverVoucherSigner v ∈ st.registeredXlps) then .error .UnauthorizedXlp
  else if ¬ now < v.expiresAt then .error .VoucherExpired
  else if st.incoming rid ≠ IncomingStatus.NONE then .error .AlreadyClaimed
  else if ¬ req.destination.maxUserOpCost ≤
      st.xlpDestBalance 0 (recoverVoucherSigner v) then
    .error .InsufficientBalance
  else
    let st1 := { st with
      xlpDestBalance := upd2 st.xlpDestBalance 0 (recoverVoucherSigner v)
        (st.xlpDestBalance 0 (recoverVoucherSigner v) -
          req.destination.maxUserOpCost) }
    match settleDestAssets (recoverVoucherSigner v) req.destination.sender
        req.destination.assets st1 with
    | none => .error .InsufficientBalance
    | some st2 =>
      .ok { st2 with
        incoming := fun k =>
          if k = rid then IncomingStatus.CLAIMED else st2.incoming k }

/-! ## XLP registration on the paymaster (spec §4.5)

Modelled from the spec: `onL1XlpChainInfoAdded` of `CrossChainPaymaster`,
whose Solidity source is absent.  The fixture notes: "When l2Connector is
set to zeroAddress, the check is skipped.  This allows us to call
onL1XlpChainInfoAdded directly in test environment"; in production the
call must originate from the registered bridge connector. -/

/-- The paymaster state relevant to XLP registration: the configured L2
bridge connector (0 disables the relay check) and the registered L2 XLP
set in registration order. -/
structure PaymasterState where
  l2Connector : Address
  registeredL2Xlps : List Address
  xlpL1Address : Address → Address

/-- Modelled from the spec: `onL1XlpChainInfoAdded(l1Xlp, l2Xlp)` — when a
real L2 connector is configured, a caller other than that connector fails
the authenticated-relay check; with the null/disabled (zero) connector the
check is skipped and the XLP is registered directly.  Registration is
idempotent (spec §4.2: applying a duplicate registration fact is a
no-op). -/
def onL1XlpChainInfoAdded (caller l1Xlp l2Xlp : Address)
    (st : PaymasterState) : Except SwapError PaymasterState :=
  if st.l2Connector ≠ 0 ∧ caller ≠ st.l2Connector then
    .error .NotFromBridgeConnector
  else
    .ok { st with
      registeredL2Xlps :=
        if l2Xlp ∈ st.registeredL2Xlps then st.registeredL2Xlps
        else st.registeredL2Xlps ++ [l2Xlp]
      xlpL1Address := fun a => if a = l2Xlp then l1Xlp else st.xlpL1Address a }

/-- The paymaster's `isL2XlpRegistered` view. -/
def isL2XlpRegistered (st : PaymasterState) (xlp : Address) : Prop :=
  xlp ∈ st.registeredL2Xlps

instance (st : PaymasterState) (xlp : Address) :
    Decidable (isL2XlpRegistered st xlp) := by
  unfold isL2XlpRegistered; infer_instance

/-! ## Network connection caching (`src/test/util/viem.ts`)

Translated from the source's network utility:

  let network: NetworkConnection | null = null
  export async function getNetwork() \x7b
    if (!network) \x7b network = await hre.network.connect() \x7d
    return network \x7d

Connections are identified by the order in which `hre.network.connect()`
creates them (`nextId`); `connCount` counts how many were ever created. -/

/-- Process state of the network module: the cached connection (the
module-level `network` variable, `none` initially), the id the next fresh
connection would get, and how many connections were created. -/
structure NetState where
  network : Option Nat
  nextId : Nat
  connCount : Nat
  deriving DecidableEq, Repr

/-- The exported `getNetwork()`: return the cached connection if present,
otherwise connect once, cache the fresh connection and return it. -/
def getNetwork (s : NetState) : Nat × NetState :=
  match s.network with
  | some n => (n, s)
  | none => (s.nextId, ⟨some s.nextId, s.nextId + 1, s.connCount + 1⟩)

/-- Run `k` successive `getNetwork()` calls, keeping only the state. -/
def runGetNetworkCalls : Nat → NetState → NetState
  | 0, s => s
  | k + 1, s => runGetNetworkCalls k (getNetwork s).2

/-! ## Concrete scenario values

The integration test's numbers: a 1-token (`10^18` wei) swap with fee rule
`(10, 100, 1, 10^16)`, destination delivery of `0.9` native token plus a
`0.1` `maxUserOpCost`, the integration fixture's delays
`(3600, 604800, 300, 60)`, and a lock at time `1000`. -/

/-- The test ERC-20 token's address. -/
def tokenAddr : Address := 1001

/-- Alice, the swapping user. -/
def aliceAddr : Address := 1002

/-- The XLP operator. -/
def xlpAddr : Address := 1003

/-- The paymaster contract (the token custodian on the origin chain). -/
def paymasterAddr : Address := 1004

/-- The destination-side AA account receiving the delivery. -/
def destAccountAddr : Address := 1005

/-- The integration test's voucher request: lock `10^18` of the test token
with fee rule `(0.1%, 1%, +1/s, 0.01 token)`, deliver `0.9` native on the
destination with a `0.1` gas ceiling, expiring at lock time + 3600. -/
def sampleRequest : VoucherRequest :=
  { origination :=
    { chainId := 31337
      paymaster := paymasterAddr
      sender := aliceAddr
      assets := [⟨tokenAddr, 10 ^ 18⟩]
      feeRule := ⟨10, 100, 1, 10 ^ 16⟩
      senderNonce := 0
      allowedXlps := [xlpAddr] }
    destination :=
    { chainId := 31337
      paymaster := paymasterAddr
      sender := destAccountAddr
      assets := [⟨0, 9 * 10 ^ 17⟩]
      maxUserOpCost := 10 ^ 17
      expiresAt := 4600 } }

/-- The XLP's voucher for `sampleRequest`: destination terms copied
verbatim, expiring at 4600, standard type, signed by the XLP. -/
def sampleVoucher : Voucher :=
  { requestId := requestIdBytes sampleRequest
    originationXlpAddress := xlpAddr
    voucherRequestDest := sampleRequest.destination
    expiresAt := 4600
    voucherType := 0
    xlpSignature := xlpAddr }

/-- Origin-chain state before the lock: integration-fixture delays, Alice
holding and having approved exactly the swap amount, the XLP registered,
no swap records. -/
def initialState : SwapState :=
  { config := ⟨3600, 604800, 300, 60⟩
    contractAddr := paymasterAddr
    swaps := fun _ => AtomicSwapMetadata.empty
    erc20Balance := fun t h => if t = tokenAddr ∧ h = aliceAddr then 10 ^ 18 else 0
    erc20AllowanceToPaymaster :=
      fun t h => if t = tokenAddr ∧ h = aliceAddr then 10 ^ 18 else 0
    xlpTokenBalance := fun _ _ => 0
    registeredXlps := [xlpAddr] }

/-- Extract the post-state of a successful operation (`d` on failure). -/
def okOr (e : Except SwapError SwapState) (d : SwapState) : SwapState :=
  match e with
  | .ok s => s
  | .error _ => d

/-- The state after Alice locks `sampleRequest` at time 1000. -/
def lockedStateRun : SwapState :=
  okOr (lockUserDeposit 1000 sampleRequest initialState) initialState

/-- The state after the XLP issues `sampleVoucher` at time 1004. -/
def issuedStateRun : SwapState :=
  okOr (issueVouchers 1004 [(sampleRequest, sampleVoucher)] lockedStateRun)
    lockedStateRun

/-- Destination-chain state for the redemption scenario: the record for
`sampleRequest` untouched, the XLP funded with `10^19` native wei,
the XLP registered. -/
def destInitialState : DestState :=
  { incoming := fun _ => IncomingStatus.NONE
    xlpDestBalance := fun t h => if t = 0 ∧ h = xlpAddr then 10 ^ 19 else 0
    recipientBalance := fun _ _ => 0
    registeredXlps := [xlpAddr] }

/-- A tampered voucher: identical to `sampleVoucher` (same valid signer)
but with a doubled `maxUserOpCost` in its copied destination terms. -/
def mismatchedVoucher : Voucher :=
  { sampleVoucher with
    voucherRequestDest :=
      { sampleRequest.destination with maxUserOpCost := 2 * 10 ^ 17 } }

/-- A test-mode paymaster: L2 connector disabled (zero address), no XLPs
registered yet. -/
def pmState0 : PaymasterState :=
  { l2Connector := 0
    registeredL2Xlps := []
    xlpL1Address := fun _ => 0 }

/-! ## Helper lemmas -/

theorem upd2_self (f : Address → Address → Nat) (a b : Address) (v : Nat) :
    upd2 f a b v a b = v := by
  simp [upd2]

theorem upd2_ne_left (f : Address → Address → Nat) (a b : Address) (v : Nat)
    (x y : Address) (h : x ≠ a) : upd2 f a b v x y = f x y := by
  simp [upd2, h]

theorem upd2_ne_right (f : Address → Address → Nat) (a b : Address) (v : Nat)
    (x y : Address) (h : y ≠ b) : upd2 f a b v x y = f x y := by
  simp [upd2, h]

theorem updSwap_self (f : List Nat → AtomicSwapMetadata) (k : List Nat)
    (m : AtomicSwapMetadata) : updSwap f k m k = m := by
  simp [updSwap]

/-- The computed fee never exceeds the `maxFeePercentNumerator` share of
the principal. -/
theorem computeFee_le_cap (fr : FeeRule) (p e : Nat) :
    computeFee fr p e ≤ p * fr.maxFeePercentNumerator / 10000 := by
  unfold computeFee
  gcongr
  exact min_le_right _ _

/-- With a fee cap strictly below 100% the fee is strictly below the
principal. -/
theorem computeFee_lt_principal (fr : FeeRule) (p e : Nat)
    (hmax : fr.maxFeePercentNumerator < 10000) (hp : 0 < p) :
    computeFee fr p e < p := by
  refine lt_of_le_of_lt (computeFee_le_cap fr p e) ?_
  refine Nat.div_lt_of_lt_mul ?_
  calc p * fr.maxFeePercentNumerator < p * 10000 :=
        mul_lt_mul_of_pos_left hmax hp
    _ = 10000 * p := Nat.mul_comm _ _

/-- A `getNetwork()` call on a state whose cache is populated returns the
cached connection and leaves the state unchanged. -/
theorem getNetwork_cached (s : NetState) (n : Nat) (h : s.network = some n) :
    getNetwork s = (n, s) := by
  unfold getNetwork
  rw [h]

/-- After any `getNetwork()` call the cache holds the returned
connection. -/
theorem getNetwork_caches (s : NetState) :
    (getNetwork s).2.network = some (getNetwork s).1 := by
  unfold getNetwork
  cases h : s.network <;> simp [h]

/-- Once the cache is populated, further `getNetwork()` calls do not
change the state. -/
theorem runGetNetworkCalls_fixed (k : Nat) (s : NetState) (n : Nat)
    (h : s.network = some n) : runGetNetworkCalls k s = s := by
  induction k with
  | zero => rfl
  | succ k ih =>
    unfold runGetNetworkCalls
    rw [getNetwork_cached s n h]
    exact ih

/-- A lock-side ERC-20 pull with sufficient allowance and balance
succeeds and produces the sequentially updated ledger. -/
theorem erc20TransferIn_ok (tok owner amt : Nat) (st : SwapState)
    (hallow : amt ≤ st.erc20AllowanceToPaymaster tok owner)
    (hbal : amt ≤ st.erc20Balance tok owner) :
    erc20TransferIn tok owner amt st = some
      { st with
        erc20Balance :=
          upd2 (upd2 st.erc20Balance tok owner (st.erc20Balance tok owner - amt))
            tok st.contractAddr
            ((upd2 st.erc20Balance tok owner (st.erc20Balance tok owner - amt))
              tok st.contractAddr + amt)
        erc20AllowanceToPaymaster :=
          upd2 st.erc20AllowanceToPaymaster tok owner
            (st.erc20AllowanceToPaymaster tok owner - amt) } := by
  unfold erc20TransferIn
  rw [if_pos ⟨hallow, hbal⟩]

/-- A refund-side ERC-20 transfer with a sufficient contract balance
succeeds and produces the sequentially updated ledger. -/
theorem erc20TransferOut_ok (tok recipient amt : Nat) (st : SwapState)
    (hbal : amt ≤ st.erc20Balance tok st.contractAddr) :
    erc20TransferOut tok recipient amt st = some
      { st with
        erc20Balance :=
          upd2 (upd2 st.erc20Balance tok st.contractAddr
              (st.erc20Balance tok st.contractAddr - amt))
            tok recipient
            ((upd2 st.erc20Balance tok st.contractAddr
                (st.erc20Balance tok st.contractAddr - amt))
              tok recipient + amt) } := by
  unfold erc20TransferOut
  rw [if_pos hbal]

/-- Success inversion for one voucher-issuance entry: a successful entry
had exactly matching destination terms, and the result is the input state
with the record moved to `VOUCHER_ISSUED` under the recovered signer. -/
theorem issueVoucherOne_ok_inv (now : Nat) (req : VoucherRequest)
    (v : Voucher) (st st' : SwapState)
    (h : issueVoucherOne now req v st = .ok st') :
    v.voucherRequestDest = req.destination ∧
    st' = { st with
      swaps := updSwap st.swaps (requestIdBytes req)
        { st.swaps (requestIdBytes req) with
          status := SwapStatus.VOUCHER_ISSUED
          voucherIssuerL2XlpAddress := recoverVoucherSigner v } } := by
  simp only [issueVoucherOne] at h
  split at h
  · exact absurd h (by simp)
  · split at h
    · exact absurd h (by simp)
    · split at h
      · exact absurd h (by simp)
      · split at h
        · exact absurd h (by simp)
        · rename_i h1 h2 h3 h4
          injection h with h5
          exact ⟨not_not.mp h2, h5.symm⟩

/-- Success inversion for a one-entry `issueVouchers` batch. -/
theorem issueVouchers_singleton_ok_inv (now : Nat) (req : VoucherRequest)
    (v : Voucher) (st st' : SwapState)
    (h : issueVouchers now [(req, v)] st = .ok st') :
    issueVoucherOne now req v st = .ok st' := by
  simp only [issueVouchers] at h
  cases h1 : issueVoucherOne now req v st with
  | error er => rw [h1] at h; exact absurd h (by simp)
  | ok st1 =>
    rw [h1] at h
    injection h with h2
    rw [← h2]

/-! ## Claim theorems -/

set_option maxRecDepth 400000

/-- C3: on a fresh request (status NONE) with sufficient approval and
balance, `lockUserDeposit` succeeds, transfers exactly the origination
asset amount (no fee component) from the sender to the contract, and
records the swap with status `NEW` (code 1) and `lockedAt = now`. -/
theorem eil_c3_lock_transfers_principal (st : SwapState)
    (req : VoucherRequest) (tok amt now : Nat)
    (hassets : req.origination.assets = [⟨tok, amt⟩])
    (hstatus : (st.swaps (requestIdBytes req)).status = SwapStatus.NONE)
    (hallow : amt ≤ st.erc20AllowanceToPaymaster tok req.origination.sender)
    (hbal : amt ≤ st.erc20Balance tok req.origination.sender)
    (hsender : req.origination.sender ≠ st.contractAddr) :
    ∃ st', lockUserDeposit now req st = .ok st' ∧
      (st'.swaps (requestIdBytes req)).status = SwapStatus.NEW ∧
      ((st'.swaps (requestIdBytes req)).status).toNat = 1 ∧
      (st'.swaps (requestIdBytes req)).lockedAt = now ∧
      st'.erc20Balance tok req.origination.sender =
        st.erc20Balance tok req.origination.sender - amt ∧
      st'.erc20Balance tok st.contractAddr =
        st.erc20Balance tok st.contractAddr + amt := by
  unfold lockUserDeposit
  rw [if_neg (by simp [hstatus]), hassets]
  simp only [transferAssetsIn]
  rw [erc20TransferIn_ok tok req.origination.sender amt st hallow hbal]
  refine ⟨_, rfl, ?_, ?_, ?_, ?_, ?_⟩ <;>
    simp [updSwap_self, upd2_self, upd2_ne_right, hsender, Ne.symm hsender,
      SwapStatus.toNat]

/-- Witness for C3: Alice locks the integration test's request at time
1000 from the initial state; the swap is recorded `NEW` at `lockedAt =
1000` and exactly `10^18` moves from Alice to the contract. -/
theorem eil_c3_witness :
    ∃ st', lockUserDeposit 1000 sampleRequest initialState = .ok st' ∧
      (st'.swaps (requestIdBytes sampleRequest)).status = SwapStatus.NEW ∧
      ((st'.swaps (requestIdBytes sampleRequest)).status).toNat = 1 ∧
      (st'.swaps (requestIdBytes sampleRequest)).lockedAt = 1000 ∧
      st'.erc20Balance tokenAddr sampleRequest.origination.sender =
        initialState.erc20Balance tokenAddr sampleRequest.origination.sender -
          10 ^ 18 ∧
      st'.erc20Balance tokenAddr initialState.contractAddr =
        initialState.erc20Balance tokenAddr initialState.contractAddr +
          10 ^ 18 :=
  eil_c3_lock_transfers_principal initialState sampleRequest tokenAddr
    (10 ^ 18) 1000 rfl rfl (by decide) (by decide) (by decide)

/-- C2: on a request in state `NEW`, cancellation strictly before
`lockedAt + userCancellationDelay` fails with `DelayNotElapsed`; at or
after that time it succeeds, sets status `CANCELLED` (code 3) and refunds
exactly the original principal to the sender — in particular a sender
whose remaining balance was zero ends up holding exactly the locked
amount. -/
theorem eil_c2_cancel_refunds_principal (st : SwapState)
    (req : VoucherRequest) (tok amt : Nat)
    (hassets : req.origination.assets = [⟨tok, amt⟩])
    (hstatus : (st.swaps (requestIdBytes req)).status = SwapStatus.NEW)
    (hsender : req.origination.sender ≠ st.contractAddr) :
    (∀ t : Nat, t < (st.swaps (requestIdBytes req)).lockedAt +
        st.config.userCancellationDelay →
      cancelVoucherRequest t req st = .error SwapError.DelayNotElapsed) ∧
    (∀ t : Nat, (st.swaps (requestIdBytes req)).lockedAt +
        st.config.userCancellationDelay ≤ t →
      amt ≤ st.erc20Balance tok st.contractAddr →
      ∃ st', cancelVoucherRequest t req st = .ok st' ∧
        (st'.swaps (requestIdBytes req)).status = SwapStatus.CANCELLED ∧
        ((st'.swaps (requestIdBytes req)).status).toNat = 3 ∧
        st'.erc20Balance tok req.origination.sender =
          st.erc20Balance tok req.origination.sender + amt ∧
        (st.erc20Balance tok req.origination.sender = 0 →
          st'.erc20Balance tok req.origination.sender = amt)) := by
  constructor
  · intro t ht
    unfold cancelVoucherRequest
    rw [if_neg (by simp [hstatus]), if_pos ht]
  · intro t ht hbal
    unfold cancelVoucherRequest
    rw [if_neg (by simp [hstatus]), if_neg (Nat.not_lt.mpr ht), hassets]
    simp only [transferAssetsOut]
    rw [erc20TransferOut_ok tok req.origination.sender amt st hbal]
    refine ⟨_, rfl, ?_, ?_, ?_, ?_⟩
    · simp [updSwap_self]
    · simp [updSwap_self, SwapStatus.toNat]
    · simp [upd2_self, upd2_ne_right, hsender]
    · intro h0
      simp [upd2_self, upd2_ne_right, hsender, h0]

/-- Witness for C2: after locking at time 1000 with a 300-second
cancellation delay, cancelling at 1299 fails with `DelayNotElapsed`;
cancelling at 1301 succeeds with status 3 and restores Alice's balance to
exactly the locked `10^18`. -/
theorem eil_c2_witness :
    cancelVoucherRequest 1299 sampleRequest lockedStateRun =
      .error SwapError.DelayNotElapsed ∧
    ∃ st', cancelVoucherRequest 1301 sampleRequest lockedStateRun = .ok st' ∧
      (st'.swaps (requestIdBytes sampleRequest)).status =
        SwapStatus.CANCELLED ∧
      ((st'.swaps (requestIdBytes sampleRequest)).status).toNat = 3 ∧
      st'.erc20Balance tokenAddr sampleRequest.origination.sender =
        lockedStateRun.erc20Balance tokenAddr sampleRequest.origination.sender
          + 10 ^ 18 ∧
      (lockedStateRun.erc20Balance tokenAddr sampleRequest.origination.sender
          = 0 →
        st'.erc20Balance tokenAddr sampleRequest.origination.sender =
          10 ^ 18) :=
  ⟨(eil_c2_cancel_refunds_principal lockedStateRun sampleRequest tokenAddr
      (10 ^ 18) rfl (by decide) (by decide)).1 1299 (by decide),
   (eil_c2_cancel_refunds_principal lockedStateRun sampleRequest tokenAddr
      (10 ^ 18) rfl (by decide) (by decide)).2 1301 (by decide) (by decide)⟩

/-- C1: on a request in state `VOUCHER_ISSUED` with no dispute raised,
withdrawal strictly before `lockedAt + voucherUnlockDelay` fails with
`DelayNotElapsed` even though the voucher was issued; at or after that
time it succeeds, sets status `SUCCESSFUL` (code 6) and credits the
voucher-issuing XLP's internal token balance with exactly
`principal - fee(elapsed)`, a strictly positive amount whenever the fee
cap is below 100% and the principal is positive. -/
theorem eil_c1_withdraw_after_unlock (st : SwapState) (req : VoucherRequest)
    (tok amt : Nat)
    (hassets : req.origination.assets = [⟨tok, amt⟩])
    (hstatus : (st.swaps (requestIdBytes req)).status =
      SwapStatus.VOUCHER_ISSUED)
    (hnodisp : (st.swaps (requestIdBytes req)).disputeRaisedAt = none)
    (hmax : req.origination.feeRule.maxFeePercentNumerator < 10000)
    (hamt : 0 < amt) :
    (∀ t : Nat, t < (st.swaps (requestIdBytes req)).lockedAt +
        st.config.voucherUnlockDelay →
      withdrawFromUserDeposit t [req] st =
        .error SwapError.DelayNotElapsed) ∧
    (∀ t : Nat, (st.swaps (requestIdBytes req)).lockedAt +
        st.config.voucherUnlockDelay ≤ t →
      ∃ st', withdrawFromUserDeposit t [req] st = .ok st' ∧
        (st'.swaps (requestIdBytes req)).status = SwapStatus.SUCCESSFUL ∧
        ((st'.swaps (requestIdBytes req)).status).toNat = 6 ∧
        st'.xlpTokenBalance tok
            (st.swaps (requestIdBytes req)).voucherIssuerL2XlpAddress =
          st.xlpTokenBalance tok
              (st.swaps (requestIdBytes req)).voucherIssuerL2XlpAddress +
            (amt - computeFee req.origination.feeRule amt
              (t - (st.swaps (requestIdBytes req)).lockedAt)) ∧
        0 < amt - computeFee req.origination.feeRule amt
          (t - (st.swaps (requestIdBytes req)).lockedAt)) := by
  constructor
  · intro t ht
    simp only [withdrawFromUserDeposit]
    unfold withdrawOne
    rw [if_neg (by simp [hstatus]), if_pos ht]
  · intro t ht
    simp only [withdrawFromUserDeposit]
    unfold withdrawOne
    rw [if_neg (by simp [hstatus]), if_neg (Nat.not_lt.mpr ht),
      if_neg (by simp [hnodisp]), hassets]
    simp only [creditAssetsToXlp]
    refine ⟨_, rfl, ?_, ?_, ?_, ?_⟩
    · simp [updSwap_self]
    · simp [updSwap_self, SwapStatus.toNat]
    · simp [upd2_self]
    · exact Nat.sub_pos_of_lt (computeFee_lt_principal _ _ _ hmax hamt)

/-- Witness for C1, the integration scenario: lock `10^18` of the token at
time 1000, issue the voucher at 1004, wait 3601 seconds past the lock with
a 3600-second `voucherUnlockDelay` — withdrawal at 4599 still fails with
`DelayNotElapsed`, withdrawal at 4601 yields status 6 and a strictly
positive XLP token balance increase of `10^18 - fee(3601)`. -/
theorem eil_c1_witness :
    withdrawFromUserDeposit 4599 [sampleRequest] issuedStateRun =
      .error SwapError.DelayNotElapsed ∧
    ∃ st', withdrawFromUserDeposit 4601 [sampleRequest] issuedStateRun =
        .ok st' ∧
      (st'.swaps (requestIdBytes sampleRequest)).status =
        SwapStatus.SUCCESSFUL ∧
      ((st'.swaps (requestIdBytes sampleRequest)).status).toNat = 6 ∧
      st'.xlpTokenBalance tokenAddr
          (issuedStateRun.swaps
            (requestIdBytes sampleRequest)).voucherIssuerL2XlpAddress =
        issuedStateRun.xlpTokenBalance tokenAddr
            (issuedStateRun.swaps
              (requestIdBytes sampleRequest)).voucherIssuerL2XlpAddress +
          (10 ^ 18 - computeFee sampleRequest.origination.feeRule (10 ^ 18)
            (4601 -
              (issuedStateRun.swaps
                (requestIdBytes sampleRequest)).lockedAt)) ∧
      0 < 10 ^ 18 - computeFee sampleRequest.origination.feeRule (10 ^ 18)
        (4601 -
          (issuedStateRun.swaps (requestIdBytes sampleRequest)).lockedAt) :=
  ⟨(eil_c1_withdraw_after_unlock issuedStateRun sampleRequest tokenAddr
      (10 ^ 18) rfl (by decide) (by decide) (by decide) (by decide)).1 4599
      (by decide),
   (eil_c1_withdraw_after_unlock issuedStateRun sampleRequest tokenAddr
      (10 ^ 18) rfl (by decide) (by decide) (by decide) (by decide)).2 4601
      (by decide)⟩

/-- C6: on a request in state `NEW`, a voucher whose destination terms
differ in any field from the request's destination is rejected with
`VoucherMismatch` regardless of its signature; conversely, any voucher
entry that succeeds — moving the request to `VOUCHER_ISSUED` — carried
destination terms exactly equal to the request's. -/
theorem eil_c6_voucher_mismatch (st : SwapState) (req : VoucherRequest)
    (v : Voucher) (now : Nat)
    (hstatus : (st.swaps (requestIdBytes req)).status = SwapStatus.NEW) :
    (v.voucherRequestDest ≠ req.destination →
      issueVouchers now [(req, v)] st = .error SwapError.VoucherMismatch) ∧
    (∀ st', issueVouchers now [(req, v)] st = .ok st' →
      v.voucherRequestDest = req.destination ∧
      (st'.swaps (requestIdBytes req)).status =
        SwapStatus.VOUCHER_ISSUED) := by
  constructor
  · intro hne
    simp only [issueVouchers]
    unfold issueVoucherOne
    rw [if_neg (by simp [hstatus]), if_pos hne]
  · intro st' hok
    have h1 := issueVouchers_singleton_ok_inv now req v st st' hok
    have h2 := issueVoucherOne_ok_inv now req v st st' h1
    refine ⟨h2.1, ?_⟩
    rw [h2.2]
    simp [updSwap_self]

/-- Witness for C6: on the locked integration request, a voucher with the
same valid signer but a doubled `maxUserOpCost` in its destination copy is
rejected with `VoucherMismatch`. -/
theorem eil_c6_witness :
    issueVouchers 1004 [(sampleRequest, mismatchedVoucher)] lockedStateRun =
      .error SwapError.VoucherMismatch :=
  (eil_c6_voucher_mismatch lockedStateRun sampleRequest mismatchedVoucher
    1004 (by decide)).1 (by decide)

/-- C8: for every `FeeRule` and elapsed times `t1 ≤ t2`, the fee at `t1`
is at most the fee at `t2` (the schedule is monotonically non-decreasing),
and at every elapsed time the fee never exceeds the `maxFeePercent` share
of the principal. -/
theorem eil_c8_fee_monotone_and_capped (fr : FeeRule) (principal : Nat) :
    (∀ t1 t2 : Nat, t1 ≤ t2 →
      computeFee fr principal t1 ≤ computeFee fr principal t2) ∧
    (∀ t : Nat, computeFee fr principal t ≤
      principal * fr.maxFeePercentNumerator / 10000) := by
  constructor
  · intro t1 t2 h
    unfold computeFee
    gcongr
  · intro t
    exact computeFee_le_cap fr principal t

/-- Witness for C8 at the integration test's fee rule `(10, 100, 1, 10^16)`
on a principal of `10^18`, comparing elapsed times 3 and 3601. -/
theorem eil_c8_witness :
    computeFee ⟨10, 100, 1, 10 ^ 16⟩ (10 ^ 18) 3 ≤
      computeFee ⟨10, 100, 1, 10 ^ 16⟩ (10 ^ 18) 3601 ∧
    computeFee ⟨10, 100, 1, 10 ^ 16⟩ (10 ^ 18) 3601 ≤
      10 ^ 18 * 100 / 10000 :=
  ⟨(eil_c8_fee_monotone_and_capped ⟨10, 100, 1, 10 ^ 16⟩ (10 ^ 18)).1 3 3601
      (by decide),
   (eil_c8_fee_monotone_and_capped ⟨10, 100, 1, 10 ^ 16⟩ (10 ^ 18)).2 3601⟩

/-- C5: `getVoucherRequestId` is a deterministic pure function of the
request's fields — two requests with identical fields yield the same
identifier — and, for a 32-byte-valued `keccak256`, the identifier is 32
bytes long. -/
theorem eil_c5_requestId_deterministic (keccak256 : List Nat → List Nat)
    (hlen : ∀ bs : List Nat, (keccak256 bs).length = 32)
    (r1 r2 : VoucherRequest) (h : r1 = r2) :
    getVoucherRequestId keccak256 r1 = getVoucherRequestId keccak256 r2 ∧
    (getVoucherRequestId keccak256 r1).length = 32 := by
  subst h
  exact ⟨rfl, hlen _⟩

/-- Witness for C5 at the integration test's request, with a concrete
32-byte-valued stand-in for the external `keccak256`. -/
theorem eil_c5_witness :
    getVoucherRequestId (fun _ => List.replicate 32 0) sampleRequest =
      getVoucherRequestId (fun _ => List.replicate 32 0) sampleRequest ∧
    (getVoucherRequestId (fun _ => List.replicate 32 0) sampleRequest).length
      = 32 :=
  eil_c5_requestId_deterministic (fun _ => List.replicate 32 0)
    (fun _ => by simp) sampleRequest sampleRequest rfl

/-- C4: locking a request whose `requestId` already carries a non-NONE
status fails with `AlreadyExists`; since the call aborts with an error, no
state is produced and the existing record is untouched. -/
theorem eil_c4_lock_replay_fails (st : SwapState) (req : VoucherRequest)
    (now : Nat)
    (h : (st.swaps (requestIdBytes req)).status ≠ SwapStatus.NONE) :
    lockUserDeposit now req st = .error SwapError.AlreadyExists := by
  unfold lockUserDeposit
  rw [if_pos h]

/-- Witness for C4: re-locking the integration test's request right after
its first lock fails with `AlreadyExists`. -/
theorem eil_c4_witness :
    lockUserDeposit 1002 sampleRequest lockedStateRun =
      .error SwapError.AlreadyExists :=
  eil_c4_lock_replay_fails lockedStateRun sampleRequest 1002 (by decide)

/-- C9: with a caller that is not the configured L2 bridge connector,
`onL1XlpChainInfoAdded` succeeds in registering the XLP exactly when the
L2 connector is the null/disabled (zero) address; with a real connector
configured, the direct call fails the authenticated-relay check. -/
theorem eil_c9_direct_call_iff_null_connector (st : PaymasterState)
    (caller l1Xlp l2Xlp : Address) (hcaller : caller ≠ st.l2Connector) :
    (∃ st', onL1XlpChainInfoAdded caller l1Xlp l2Xlp st = .ok st' ∧
      isL2XlpRegistered st' l2Xlp) ↔ st.l2Connector = 0 := by
  constructor
  · rintro ⟨st', hok, _⟩
    by_contra h0
    unfold onL1XlpChainInfoAdded at hok
    rw [if_pos ⟨h0, hcaller⟩] at hok
    cases hok
  · intro h0
    unfold onL1XlpChainInfoAdded
    rw [if_neg (by rintro ⟨h1, _⟩; exact h1 h0)]
    refine ⟨_, rfl, ?_⟩
    unfold isL2XlpRegistered
    dsimp only
    by_cases hmem : l2Xlp ∈ st.registeredL2Xlps
    · simp [hmem]
    · simp [hmem]

/-- Witness for C9: on the test-mode paymaster (zero L2 connector) a
direct call by a non-connector address registers the XLP. -/
theorem eil_c9_witness :
    (∃ st', onL1XlpChainInfoAdded aliceAddr xlpAddr xlpAddr pmState0 =
        .ok st' ∧ isL2XlpRegistered st' xlpAddr) ↔
      pmState0.l2Connector = 0 :=
  eil_c9_direct_call_iff_null_connector pmState0 aliceAddr xlpAddr xlpAddr
    (by decide)

/-- C7: a destination-side redemption succeeds only when
`getIncomingAtomicSwap` reports `NONE` for the `requestId`; the first
successful redemption marks the record `CLAIMED`, and any second
redemption of the same `requestId` (while the voucher is still otherwise
valid) fails with `AlreadyClaimed`, making redemption idempotent under
bridge message replay. -/
theorem eil_c7_redeem_replay_guard (st : DestState) (req : VoucherRequest)
    (v : Voucher) (now1 damt : Nat)
    (hsig1 : recoverVoucherSigner v ∈ req.origination.allowedXlps)
    (hsig2 : recoverVoucherSigner v ∈ st.registeredXlps)
    (hexp : now1 < v.expiresAt)
    (hnone : getIncomingAtomicSwap st (requestIdBytes req) =
      IncomingStatus.NONE)
    (hassets : req.destination.assets = [⟨0, damt⟩])
    (hbal : req.destination.maxUserOpCost + damt ≤
      st.xlpDestBalance 0 (recoverVoucherSigner v)) :
    (∀ (s s' : DestState) (t : Nat), redeemVoucher t req v s = .ok s' →
      getIncomingAtomicSwap s (requestIdBytes req) = IncomingStatus.NONE) ∧
    ∃ st', redeemVoucher now1 req v st = .ok st' ∧
      getIncomingAtomicSwap st' (requestIdBytes req) =
        IncomingStatus.CLAIMED ∧
      ∀ now2 : Nat, now2 < v.expiresAt →
        redeemVoucher now2 req v st' = .error SwapError.AlreadyClaimed := by
  constructor
  · intro s s' t hok
    simp only [redeemVoucher] at hok
    split at hok
    · exact absurd hok (by simp)
    · split at hok
      · exact absurd hok (by simp)
      · split at hok
        · exact absurd hok (by simp)
        · rename_i h1 h2 h3
          simpa [getIncomingAtomicSwap] using not_not.mp h3
  · have hnone' : st.incoming (requestIdBytes req) = IncomingStatus.NONE :=
      hnone
    have hcost : req.destination.maxUserOpCost ≤
        st.xlpDestBalance 0 (recoverVoucherSigner v) :=
      le_trans (Nat.le_add_right _ _) hbal
    have hd : damt ≤ st.xlpDestBalance 0 (recoverVoucherSigner v) -
        req.destination.maxUserOpCost := by omega
    unfold redeemVoucher
    rw [if_neg (not_not_intro ⟨hsig1, hsig2⟩),
      if_neg (not_not_intro hexp),
      if_neg (not_not_intro hnone'),
      if_neg (not_not_intro hcost), hassets]
    simp only [settleDestAssets, upd2_self]
    rw [if_pos hd]
    refine ⟨_, rfl, ?_, ?_⟩
    · simp [getIncomingAtomicSwap]
    · intro now2 hexp2
      simp only [redeemVoucher]
      rw [if_neg (not_not_intro ⟨hsig1, hsig2⟩),
        if_neg (not_not_intro hexp2),
        if_pos (by simp)]

/-- Witness for C7: redeeming the integration request's voucher at time
1100 against the funded destination state succeeds and marks the record
`CLAIMED`; an immediate replay at 1101 fails with `AlreadyClaimed`. -/
theorem eil_c7_witness :
    ∃ st', redeemVoucher 1100 sampleRequest sampleVoucher destInitialState =
        .ok st' ∧
      getIncomingAtomicSwap st' (requestIdBytes sampleRequest) =
        IncomingStatus.CLAIMED ∧
      ∀ now2 : Nat, now2 < sampleVoucher.expiresAt →
        redeemVoucher now2 sampleRequest sampleVoucher st' =
          .error SwapError.AlreadyClaimed :=
  (eil_c7_redeem_replay_guard destInitialState sampleRequest sampleVoucher
    1100 (9 * 10 ^ 17) (by decide) (by decide) (by decide) (by decide) rfl
    (by decide)).2

/-- C10: every `getNetwork()` call after the first returns the connection
and state of the first call unchanged (one shared network instance), and
starting from the module's fresh state any number of calls creates at most
one connection. -/
theorem eil_c10_getNetwork_cached_once :
    (∀ (s : NetState) (k : Nat),
      getNetwork (runGetNetworkCalls k (getNetwork s).2) =
        ((getNetwork s).1, (getNetwork s).2)) ∧
    (∀ (k : Nat) (s : NetState), s.network = none → s.connCount = 0 →
      (runGetNetworkCalls k s).connCount ≤ 1) := by
  constructor
  · intro s k
    rw [runGetNetworkCalls_fixed k _ _ (getNetwork_caches s)]
    exact getNetwork_cached _ _ (getNetwork_caches s)
  · intro k s hn hc
    cases k with
    | zero => simp [runGetNetworkCalls, hc]
    | succ k =>
      unfold runGetNetworkCalls
      rw [runGetNetworkCalls_fixed k _ _ (getNetwork_caches s)]
      simp [getNetwork, hn, hc]

/-- Witness for C10: from the fresh module state, the sixth call returns
the first call's connection and state, and three calls create one
connection. -/
theorem eil_c10_witness :
    getNetwork (runGetNetworkCalls 5 (getNetwork ⟨none, 0, 0⟩).2) =
      ((getNetwork ⟨none, 0, 0⟩).1, (getNetwork ⟨none, 0, 0⟩).2) ∧
    (runGetNetworkCalls 3 ⟨none, 0, 0⟩).connCount ≤ 1 :=
  ⟨eil_c10_getNetwork_cached_once.1 ⟨none, 0, 0⟩ 5,
   eil_c10_getNetwork_cached_once.2 3 ⟨none, 0, 0⟩ rfl rfl⟩

end EIL
